import Mathlib

/-!
Verification of the `EditorDiffViewer` scroll/navigation component

Shallow embedding of the `EditorDiffViewer` React component
(post-revision diff viewer) and proofs about its change-locator,
viewport-tracker and navigation-controller logic.

Modelling conventions:
- JS numbers are modelled as rationals (`ℚ`); all arithmetic in the
  component stays exact (additions, halving, `Math.max`).
- A possibly-missing JS value (`undefined`) is `Option`; `lodash.get`
  with a default is `Option.getD`.
- `undefined` flowing into arithmetic produces `NaN`; a `NaN` scroll
  target is modelled as `none` (`Option.map` propagates it).
- Side effects (instant scroll assignment, animated `scrollTo` call,
  `recordTracksEvent`) are reified as an emitted list of `Action`s.
- React `setState` is modelled as a merge of a record of optional
  field updates into the component state.
-/

namespace EditorDiffViewer

/-- Geometry of one DOM node matching the selector
`.text-diff__additions, .text-diff__deletions`, as the component reads it:
`offsetTop` and `offsetHeight`, each possibly missing (detached node). -/
structure DiffNode where
  offsetTop : Option ℚ
  offsetHeight : Option ℚ
deriving DecidableEq, Repr

/-- The geometry of the scrollable container at one instant: the tagged
change nodes in document order, and the container's own measured height
and scroll position (possibly missing when detached). -/
structure Geometry where
  diffNodes : List DiffNode
  offsetHeight : Option ℚ
  scrollTop : Option ℚ
deriving DecidableEq, Repr

/-- Source: `const getCenterOffset = node => get(node, 'offsetTop', 0) + get(node, 'offsetHeight', 0) / 2` -/
def getCenterOffset (node : DiffNode) : ℚ :=
  node.offsetTop.getD 0 + node.offsetHeight.getD 0 / 2

/-- React component state: `{ changeOffsets: [], scrollTop: 0, viewportHeight: 0 }`. -/
structure ComponentState where
  changeOffsets : List ℚ
  scrollTop : ℚ
  viewportHeight : ℚ
deriving DecidableEq, Repr

/-- The initial state declared by the class. -/
def initialState : ComponentState := ⟨[], 0, 0⟩

/-- A record passed to React `setState`: fields that are `none` are left
untouched by the merge. -/
structure StateUpdate where
  changeOffsets : Option (List ℚ) := none
  scrollTop : Option ℚ := none
  viewportHeight : Option ℚ := none
deriving DecidableEq, Repr

/-- React `setState`: merge the partial update into the current state. -/
def setState (s : ComponentState) (u : StateUpdate) : ComponentState :=
  { changeOffsets := u.changeOffsets.getD s.changeOffsets
    scrollTop := u.scrollTop.getD s.scrollTop
    viewportHeight := u.viewportHeight.getD s.viewportHeight }

/-- The update `recomputeChanges` passes to `setState`: offsets of all
tagged nodes (via `map(diffNodes, getCenterOffset)`), the container's
`offsetHeight` and `scrollTop`, each defaulted to 0 when missing. -/
def recomputeChangesUpdate (g : Geometry) : StateUpdate :=
  { changeOffsets := some (g.diffNodes.map getCenterOffset)
    viewportHeight := some (g.offsetHeight.getD 0)
    scrollTop := some (g.scrollTop.getD 0) }

/-- Effect of `recomputeChanges` applied to the component state. -/
def recomputeChanges (g : Geometry) (s : ComponentState) : ComponentState :=
  setState s (recomputeChangesUpdate g)

/-- The change-locator pass of the spec: the offset sequence that
`recomputeChanges` stores into `changeOffsets`. -/
def locate (g : Geometry) : List ℚ :=
  g.diffNodes.map getCenterOffset

/-- Direction tag carried by the analytics event
`calypso_editor_post_revisions_scroll_hint_used`. -/
inductive Direction where
  | above
  | below
deriving DecidableEq, Repr

/-- Observable side effects of the component. A `none` target models a
`NaN` scroll position (arithmetic on `undefined`). -/
inductive Action where
  | instantScroll (target : Option ℚ)
  | animatedScroll (target : Option ℚ)
  | analytics (direction : Direction)
deriving DecidableEq, Repr

/-- The scroll target an action carries, if it is a scroll. -/
def Action.target : Action → Option ℚ
  | .instantScroll t => t
  | .animatedScroll t => t
  | .analytics _ => none

/-- Computes `Math.max(0, offset - viewportHeight / 2)` where `offset` may be
`undefined` (then the subtraction and the max are `NaN`, i.e. `none`). -/
def nextScrollTop (offset : Option ℚ) (viewportHeight : ℚ) : Option ℚ :=
  offset.map fun o => max 0 (o - viewportHeight / 2)

/-- Source: `centerScrollingOnOffset(offset, animated)`: compute the clamped
centering target from the current state's `viewportHeight`, then either
set `this.node.scrollTop` directly (instant) or call `scrollTo` (animated). -/
def centerScrollingOnOffset (offset : Option ℚ) (animated : Bool)
    (s : ComponentState) : Action :=
  if animated then .animatedScroll (nextScrollTop offset s.viewportHeight)
  else .instantScroll (nextScrollTop offset s.viewportHeight)

/-- Source: `handleScroll`: the `setState` record `{ scrollTop: get(e.target, 'scrollTop', 0) }`.
The event is represented by the `scrollTop` reading of its target. -/
def handleScrollUpdate (targetScrollTop : Option ℚ) : StateUpdate :=
  { scrollTop := some (targetScrollTop.getD 0) }

/-- Effect of one `handleScroll` invocation on the component state. -/
def handleScroll (targetScrollTop : Option ℚ) (s : ComponentState) : ComponentState :=
  setState s (handleScrollUpdate targetScrollTop)

/-- Derived `this.changesAboveViewport`: offsets strictly below the viewport top
(`filter(changeOffsets, offset => offset < scrollTop)`). -/
def changesAboveViewport (s : ComponentState) : List ℚ :=
  s.changeOffsets.filter fun offset => offset < s.scrollTop

/-- Source: `const bottomBoundary = this.state.scrollTop + this.state.viewportHeight`. -/
def bottomBoundary (s : ComponentState) : ℚ :=
  s.scrollTop + s.viewportHeight

/-- Derived `this.changesBelowViewport`: offsets strictly beyond the viewport bottom
(`filter(changeOffsets, offset => offset > bottomBoundary)`). -/
def changesBelowViewport (s : ComponentState) : List ℚ :=
  s.changeOffsets.filter fun offset => bottomBoundary s < offset

/-- Source: `const showHints = this.state.viewportHeight > 470`. -/
def showHints (s : ComponentState) : Bool :=
  470 < s.viewportHeight

/-- The above hint is rendered when `showHints && countAbove > 0`. -/
def hintAboveShown (s : ComponentState) : Bool :=
  showHints s && 0 < (changesAboveViewport s).length

/-- The below hint is rendered when `showHints && countBelow > 0`. -/
def hintBelowShown (s : ComponentState) : Bool :=
  showHints s && 0 < (changesBelowViewport s).length

/-- Source: `scrollAbove`: animated centering on `last(this.changesAboveViewport)`
(`undefined` on an empty list), then one analytics event with direction
`above`. -/
def scrollAbove (s : ComponentState) : List Action :=
  [centerScrollingOnOffset (changesAboveViewport s).getLast? true s,
   Action.analytics Direction.above]

/-- Source: `scrollBelow`: animated centering on `first(this.changesBelowViewport)`
(`undefined` on an empty list), then one analytics event with direction
`below`. -/
def scrollBelow (s : ComponentState) : List Action :=
  [centerScrollingOnOffset (changesBelowViewport s).head? true s,
   Action.analytics Direction.below]

/-- Is an action the analytics notification? -/
def isAnalytics : Action → Bool
  | .analytics _ => true
  | _ => false

/-- Props and instance fields of a mounted component: the current
`selectedRevisionId` prop (null/undefined = `none`), the
`lastScolledRevisionId` instance field (initialized to null), and the
React state. -/
structure Component where
  selectedRevisionId : Option ℕ
  lastScolledRevisionId : Option ℕ
  state : ComponentState
deriving DecidableEq, Repr

/-- JS truthiness test `! this.props.selectedRevisionId` on a numeric
prop: null/undefined and the number 0 are falsy. -/
def isFalsyId : Option ℕ → Bool
  | none => true
  | some n => n == 0

/-- Source: `tryScrollingToFirstChangeOrTop`: return early when the selected
revision is falsy or equals `lastScolledRevisionId`; otherwise remember
it, run `recomputeChanges` against the current geometry, and in its
callback instantly center on `this.state.changeOffsets[0] || 0` of the
freshly set state. -/
def tryScrollingToFirstChangeOrTop (g : Geometry) (c : Component) :
    Component × List Action :=
  if isFalsyId c.selectedRevisionId
      || c.selectedRevisionId == c.lastScolledRevisionId then
    (c, [])
  else
    let s := recomputeChanges g c.state
    ({ c with lastScolledRevisionId := c.selectedRevisionId, state := s },
     [centerScrollingOnOffset (some (s.changeOffsets.headD 0)) false s])

/-- Lifecycle: `componentDidMount` auto-scrolls via `tryScrollingToFirstChangeOrTop`
(the resize-listener registration is modelled separately). -/
def componentDidMount (g : Geometry) (c : Component) : Component × List Action :=
  tryScrollingToFirstChangeOrTop g c

/-- Lifecycle: `componentDidUpdate` calls `tryScrollingToFirstChangeOrTop`. -/
def componentDidUpdate (g : Geometry) (c : Component) : Component × List Action :=
  tryScrollingToFirstChangeOrTop g c

/-- Source: `componentWillReceiveProps(nextProps)`: when the incoming
`selectedRevisionId` differs from the current prop,
`setState({ changeOffsets: [] })`. -/
def componentWillReceiveProps (nextSelectedRevisionId : Option ℕ)
    (c : Component) : Component :=
  if nextSelectedRevisionId ≠ c.selectedRevisionId then
    { c with state := setState c.state { changeOffsets := some [] } }
  else c

/-- A full React props-delivery cycle: `componentWillReceiveProps` with
the old props still in place, then the props swap, then the post-render
`componentDidUpdate`. -/
def receiveProps (nextSelectedRevisionId : Option ℕ) (g : Geometry)
    (c : Component) : Component × List Action :=
  let c1 := componentWillReceiveProps nextSelectedRevisionId c
  componentDidUpdate g { c1 with selectedRevisionId := nextSelectedRevisionId }

/-- Lifecycle events after mount: a re-render with unchanged props, or a
props delivery. Each carries the geometry of the DOM at that moment. -/
inductive LifecycleEvent where
  | update (g : Geometry)
  | receiveProps (sel : Option ℕ) (g : Geometry)
deriving DecidableEq, Repr

/-- One lifecycle event applied to the component. -/
def stepEvent (c : Component) : LifecycleEvent → Component × List Action
  | .update g => componentDidUpdate g c
  | .receiveProps sel g => receiveProps sel g c

/-- Run a sequence of lifecycle events, collecting the emitted actions. -/
def run (c : Component) : List LifecycleEvent → Component × List Action
  | [] => (c, [])
  | e :: es =>
    let ca := stepEvent c e
    let ca2 := run ca.1 es
    (ca2.1, ca.2 ++ ca2.2)

/-- Does a lifecycle event keep the selected revision equal to `r`? -/
def LifecycleEvent.keepsSelection (r : Option ℕ) : LifecycleEvent → Bool
  | .update _ => true
  | .receiveProps sel _ => sel == r

/-- Is an action the instant (non-animated) centering scroll? -/
def isInstantScroll : Action → Bool
  | .instantScroll _ => true
  | _ => false

/-- The scroll-listener bookkeeping around `handleScrollableRef`: the
`this.node` reference (`none` = null) and the list of nodes (by identity)
currently holding the component's scroll listener. -/
structure RefState where
  node : Option ℕ
  listeners : List ℕ
deriving DecidableEq, Repr

/-- Source: `handleScrollableRef(node)`: on a node, store it in `this.node` and
`addEventListener` (registering an identical listener twice is a DOM
no-op); on null, call `this.node.removeEventListener` — which
dereferences `this.node` and therefore throws (`none`) when no node is
held — then null out `this.node`. -/
def handleScrollableRef (newNode : Option ℕ) (r : RefState) : Option RefState :=
  match newNode with
  | some n =>
    some { node := some n
           listeners := if n ∈ r.listeners then r.listeners else r.listeners ++ [n] }
  | none =>
    match r.node with
    | none => none
    | some m => some { node := none, listeners := r.listeners.erase m }

/-! Model of lodash `debounce` / `throttle`:

The component rate-limits with `throttle(this.handleScroll, 100)` and
`debounce(partial(this.recomputeChanges, null), 500)`. Lodash implements
`throttle(f, w)` as `debounce(f, w, { leading: true, trailing: true,
maxWait: w })`, and `debounce(f, w)` defaults to `{ leading: false,
trailing: true }` with no `maxWait`. The embedding below reproduces the
lodash algorithm (`shouldInvoke` / `leadingEdge` / `timerExpired` /
`trailingEdge`) over discrete millisecond timestamps, with timers fired
at their deadlines between calls. -/

/-- Lodash debounce options as fixed by the call site. `maxWait = some w`
is the "maxing" mode used by `throttle`. -/
structure DebounceConfig where
  wait : ℕ
  leading : Bool
  trailing : Bool
  maxWait : Option ℕ
deriving DecidableEq, Repr

/-- The mutable closure state of a lodash-debounced function. -/
structure DebounceState (α : Type) where
  lastArgs : Option α := none
  lastCallTime : Option ℕ := none
  lastInvokeTime : ℕ := 0
  timerDeadline : Option ℕ := none

/-- Lodash `shouldInvoke(time)`. -/
def shouldInvoke (cfg : DebounceConfig) (st : DebounceState α) (time : ℕ) : Bool :=
  match st.lastCallTime with
  | none => true
  | some lct =>
    decide (time < lct) || decide (cfg.wait ≤ time - lct) ||
      (match cfg.maxWait with
       | some mw => decide (mw ≤ time - st.lastInvokeTime)
       | none => false)

/-- Lodash `invokeFunc(time)`: record the underlying call with the
pending args, clear them, and remember the invoke time. -/
def invokeFunc (st : DebounceState α) (time : ℕ) (acc : List (ℕ × α)) :
    DebounceState α × List (ℕ × α) :=
  match st.lastArgs with
  | some a => ({ st with lastInvokeTime := time, lastArgs := none }, acc ++ [(time, a)])
  | none => ({ st with lastInvokeTime := time }, acc)

/-- Lodash `trailingEdge(time)`: drop the timer and invoke when trailing
invocation is enabled and args are pending. -/
def trailingEdge (cfg : DebounceConfig) (st : DebounceState α) (time : ℕ)
    (acc : List (ℕ × α)) : DebounceState α × List (ℕ × α) :=
  let st1 : DebounceState α := { st with timerDeadline := none }
  if cfg.trailing && st1.lastArgs.isSome then invokeFunc st1 time acc
  else ({ st1 with lastArgs := none }, acc)

/-- Lodash `timerExpired` at the timer's deadline: either take the
trailing edge, or re-arm the timer for the remaining wait. -/
def timerExpired (cfg : DebounceConfig) (st : DebounceState α) (time : ℕ)
    (acc : List (ℕ × α)) : DebounceState α × List (ℕ × α) :=
  if shouldInvoke cfg st time then trailingEdge cfg st time acc
  else
    let lct := st.lastCallTime.getD 0
    let timeWaiting := cfg.wait - (time - lct)
    let remaining := match cfg.maxWait with
      | none => timeWaiting
      | some mw => min timeWaiting (mw - (time - st.lastInvokeTime))
    ({ st with timerDeadline := some (time + remaining) }, acc)

/-- Fire every pending timer whose deadline is within the horizon
(`none` = fire them all), with fuel bounding the re-arming chain. -/
def runTimers (cfg : DebounceConfig) :
    ℕ → Option ℕ → DebounceState α → List (ℕ × α) → DebounceState α × List (ℕ × α)
  | 0, _, st, acc => (st, acc)
  | fuel + 1, horizon, st, acc =>
    match st.timerDeadline with
    | none => (st, acc)
    | some d =>
      if (match horizon with | none => true | some h => decide (d ≤ h)) then
        let r := timerExpired cfg st d acc
        runTimers cfg fuel horizon r.1 r.2
      else (st, acc)

/-- Lodash `debounced(...args)` called at `time`. -/
def debouncedCall (cfg : DebounceConfig) (st : DebounceState α) (time : ℕ)
    (args : α) (acc : List (ℕ × α)) : DebounceState α × List (ℕ × α) :=
  let isInvoking := shouldInvoke cfg st time
  let st1 : DebounceState α := { st with lastArgs := some args, lastCallTime := some time }
  if isInvoking then
    match st1.timerDeadline with
    | none =>
      let st2 : DebounceState α :=
        { st1 with lastInvokeTime := time, timerDeadline := some (time + cfg.wait) }
      if cfg.leading then invokeFunc st2 time acc else (st2, acc)
    | some _ =>
      match cfg.maxWait with
      | some _ =>
        let st2 : DebounceState α := { st1 with timerDeadline := some (time + cfg.wait) }
        invokeFunc st2 time acc
      | none => (st1, acc)
  else
    match st1.timerDeadline with
    | none => ({ st1 with timerDeadline := some (time + cfg.wait) }, acc)
    | some _ => (st1, acc)

/-- Drive a time-ordered list of calls through a lodash-debounced
function, firing due timers before each call and all timers at the end;
returns the times and args of the underlying function's invocations. -/
def runDebounce (cfg : DebounceConfig) :
    List (ℕ × α) → DebounceState α → List (ℕ × α) → DebounceState α × List (ℕ × α)
  | [], st, acc => runTimers cfg 100 none st acc
  | (t, a) :: rest, st, acc =>
    let r1 := runTimers cfg 100 (some t) st acc
    let r2 := debouncedCall cfg r1.1 t a r1.2
    runDebounce cfg rest r2.1 r2.2

/-- Config of `throttle(f, wait)`: leading + trailing + `maxWait = wait`. -/
def throttleConfig (wait : ℕ) : DebounceConfig :=
  ⟨wait, true, true, some wait⟩

/-- Config of `debounce(f, wait)`: trailing only, no `maxWait`. -/
def debounceConfig (wait : ℕ) : DebounceConfig :=
  ⟨wait, false, true, none⟩

/-- Invocations of `f` produced by `throttle(f, wait)` on a burst of calls. -/
def throttleInvocations (wait : ℕ) (calls : List (ℕ × α)) : List (ℕ × α) :=
  (runDebounce (throttleConfig wait) calls {} []).2

/-- Invocations of `f` produced by `debounce(f, wait)` on a burst of calls. -/
def debounceInvocations (wait : ℕ) (calls : List (ℕ × α)) : List (ℕ × α) :=
  (runDebounce (debounceConfig wait) calls {} []).2


/-! Section: Listener lifecycle (C9) -/

/-- Counterexample to C9 as stated: invoking the ref callback with null
while no container is held is not a safe no-op — the code unconditionally
calls `this.node.removeEventListener`, dereferencing the null `this.node`
(a TypeError, modelled as `none`). -/
theorem redundant_teardown_counterexample :
    handleScrollableRef none ⟨none, []⟩ = none := rfl

/-- Claim C9 (amended: redundant teardown — the ref callback invoked with
null while no container is held — dereferences the null container
reference and throws rather than being a guarded no-op; under the normal
React ref protocol, where detach happens exactly once while the container
is still held, the scroll listener is attached exactly once per container
mount and removed exactly once per unmount). -/
theorem listener_lifecycle (n : ℕ) (r : RefState) (hnode : r.node = none) :
    handleScrollableRef (some n) ⟨none, []⟩ = some ⟨some n, [n]⟩ ∧
    handleScrollableRef none ⟨some n, [n]⟩ = some ⟨none, []⟩ ∧
    handleScrollableRef none r = none := by
  refine ⟨by simp [handleScrollableRef], by simp [handleScrollableRef], ?_⟩
  obtain ⟨rn, rl⟩ := r
  obtain rfl : rn = none := hnode
  rfl

/-- Witness for C9: mounting container 7 attaches its listener once. -/
theorem listener_lifecycle_witness :
    (⟨none, []⟩ : RefState).node = none ∧
    handleScrollableRef (some 7) ⟨none, []⟩ = some ⟨some 7, [7]⟩ :=
  ⟨rfl, (listener_lifecycle 7 ⟨none, []⟩ rfl).1⟩

/-! Section: Throttle and debounce coalescing (C8) -/

/-- Counterexample to C8 as stated: five scroll events within 50 ms fed
through lodash `throttle(f, 100)` produce two invocations of `f` — a
leading-edge one at the first event and a trailing-edge one 100 ms later —
not exactly one. -/
theorem throttle_burst_counterexample :
    throttleInvocations 100
        [(0, (1 : ℚ)), (10, 2), (20, 3), (30, 4), (40, 5)] =
      [(0, 1), (100, 5)] ∧
    (throttleInvocations 100
        [(0, (1 : ℚ)), (10, 2), (20, 3), (30, 4), (40, 5)]).length ≠ 1 := by
  refine ⟨by decide, by decide⟩

/-- Claim C8 (amended: lodash `throttle(handleScroll, 100)` is a
leading-plus-trailing throttle, so a burst of five scroll events within
50 ms produces exactly two state updates — one at the first event with
its scrollTop and one 100 ms after the first with the last event's
scrollTop, the final state reflecting the last event; the resize side is
as claimed: `debounce(recomputeChanges, 500)` is trailing-edge, and five
resize events within 200 ms produce exactly one recompute, 500 ms after
the last event). -/
theorem throttle_debounce_coalescing (a1 a2 a3 a4 a5 : ℚ)
    (s : ComponentState) :
    throttleInvocations 100 [(0, a1), (10, a2), (20, a3), (30, a4), (40, a5)] =
      [(0, a1), (100, a5)] ∧
    (((throttleInvocations 100
          [(0, a1), (10, a2), (20, a3), (30, a4), (40, a5)]).map
        Prod.snd).foldl (fun st v => handleScroll (some v) st) s).scrollTop =
      a5 ∧
    debounceInvocations 500
        [(0, ()), (50, ()), (100, ()), (150, ()), (200, ())] =
      [(700, ())] := by
  have hthr : throttleInvocations 100
      [(0, a1), (10, a2), (20, a3), (30, a4), (40, a5)] =
      [(0, a1), (100, a5)] := by
    simp [throttleInvocations, runDebounce, runTimers, debouncedCall,
      timerExpired, trailingEdge, invokeFunc, shouldInvoke, throttleConfig]
  have hdeb : debounceInvocations 500
      [(0, ()), (50, ()), (100, ()), (150, ()), (200, ())] =
      [(700, ())] := by
    simp [debounceInvocations, runDebounce, runTimers, debouncedCall,
      timerExpired, trailingEdge, invokeFunc, shouldInvoke, debounceConfig]
  refine ⟨hthr, ?_, hdeb⟩
  rw [hthr]
  rfl

end EditorDiffViewer

namespace EditorDiffViewer

/-! Section: Claim theorems: pure render-time derivations -/

/-- Claim C3. Above/below partition: an offset is in `changesAboveViewport`
exactly when it occurs in the offset set and is strictly less than
`scrollTop`; it is in `changesBelowViewport` exactly when it occurs in the
set and is strictly greater than `scrollTop + viewportHeight`; with a
non-negative viewport height, an offset equal to `scrollTop` or to
`scrollTop + viewportHeight` is in neither list. -/
theorem changesAbove_changesBelow_partition (s : ComponentState) (o : ℚ)
    (hvh : 0 ≤ s.viewportHeight) :
    (o ∈ changesAboveViewport s ↔ o ∈ s.changeOffsets ∧ o < s.scrollTop) ∧
    (o ∈ changesBelowViewport s ↔
      o ∈ s.changeOffsets ∧ s.scrollTop + s.viewportHeight < o) ∧
    (o = s.scrollTop →
      o ∉ changesAboveViewport s ∧ o ∉ changesBelowViewport s) ∧
    (o = s.scrollTop + s.viewportHeight →
      o ∉ changesAboveViewport s ∧ o ∉ changesBelowViewport s) := by
  constructor
  · simp [changesAboveViewport]
  constructor
  · simp [changesBelowViewport, bottomBoundary]
  constructor
  · rintro rfl
    constructor
    · simp [changesAboveViewport]
    · simp only [changesBelowViewport, List.mem_filter, decide_eq_true_eq,
        bottomBoundary]
      rintro ⟨-, h⟩
      linarith
  · rintro rfl
    constructor
    · simp only [changesAboveViewport, List.mem_filter, decide_eq_true_eq]
      rintro ⟨-, h⟩
      linarith
    · simp [changesBelowViewport, bottomBoundary]

/-- Witness for C3 at the spec's worked example: offsets
`[10, 50, 120, 400, 900]`, `scrollTop = 100`, `viewportHeight = 300`. -/
theorem changesAbove_changesBelow_partition_witness :
    (0 ≤ (⟨[10, 50, 120, 400, 900], 100, 300⟩ : ComponentState).viewportHeight) ∧
    ((400 : ℚ) ∈ (⟨[10, 50, 120, 400, 900], 100, 300⟩ : ComponentState).changeOffsets ∧
        (400 : ℚ) < 100 ↔ False) := by
  refine ⟨by norm_num, ?_⟩
  have h := changesAbove_changesBelow_partition
    ⟨[10, 50, 120, 400, 900], 100, 300⟩ 400 (by norm_num)
  have h4 := (h.2.2.2 (by norm_num)).1
  constructor
  · intro hmem
    exact h4 ((h.1).2 hmem)
  · intro hf
    exact hf.elim

/-- Claim C4. Centering formula: on a numeric offset both the animated and
the instant path carry target `max 0 (offset - viewportHeight / 2)`, which
is never negative; the spec's two instances evaluate to 200 and 0. -/
theorem centerScrollingOnOffset_formula (s : ComponentState) (offset : ℚ) :
    (centerScrollingOnOffset (some offset) true s).target =
      some (max 0 (offset - s.viewportHeight / 2)) ∧
    (centerScrollingOnOffset (some offset) false s).target =
      some (max 0 (offset - s.viewportHeight / 2)) ∧
    0 ≤ max 0 (offset - s.viewportHeight / 2) ∧
    nextScrollTop (some 300) 200 = some 200 ∧
    nextScrollTop (some 50) 200 = some 0 := by
  refine ⟨rfl, rfl, le_max_left 0 _, ?_, ?_⟩ <;>
    simp [nextScrollTop] <;> norm_num

/-- Claim C5. Locate correctness: `locate` returns one offset per tagged
node, in document order, the i-th offset being the i-th node's
`offsetTop + offsetHeight / 2` with missing geometry defaulted to 0; a
fully detached node yields offset 0; zero tagged nodes yield the empty
sequence. -/
theorem locate_correct (g : Geometry) :
    (locate g).length = g.diffNodes.length ∧
    (∀ i : ℕ, (locate g)[i]? =
      (g.diffNodes[i]?).map fun n => n.offsetTop.getD 0 + n.offsetHeight.getD 0 / 2) ∧
    getCenterOffset ⟨none, none⟩ = 0 ∧
    (g.diffNodes = [] → locate g = []) := by
  refine ⟨by simp [locate], ?_, by simp [getCenterOffset], ?_⟩
  · intro i
    simp only [locate, List.getElem?_map]
    rfl
  · intro h
    simp [locate, h]

/-- Witness for C5 on a container with zero tagged regions. -/
theorem locate_correct_witness :
    (⟨[], some 100, none⟩ : Geometry).diffNodes = [] ∧
    locate ⟨[], some 100, none⟩ = [] :=
  ⟨rfl, (locate_correct ⟨[], some 100, none⟩).2.2.2 rfl⟩

/-- Claim C7. Hint threshold: a hint is rendered exactly when
`viewportHeight > 470` and the corresponding offset list is non-empty; at
exactly 470 both hints are suppressed whatever the lists hold, and at 471
each hint is shown exactly when its list is non-empty. -/
theorem hint_threshold (s : ComponentState) :
    (hintAboveShown s = true ↔
      470 < s.viewportHeight ∧ changesAboveViewport s ≠ []) ∧
    (hintBelowShown s = true ↔
      470 < s.viewportHeight ∧ changesBelowViewport s ≠ []) ∧
    (s.viewportHeight = 470 →
      hintAboveShown s = false ∧ hintBelowShown s = false) ∧
    (s.viewportHeight = 471 →
      ((hintAboveShown s = true ↔ changesAboveViewport s ≠ []) ∧
       (hintBelowShown s = true ↔ changesBelowViewport s ≠ []))) := by
  have habove : hintAboveShown s = true ↔
      470 < s.viewportHeight ∧ changesAboveViewport s ≠ [] := by
    simp [hintAboveShown, showHints, List.length_pos, Ne]
  have hbelow : hintBelowShown s = true ↔
      470 < s.viewportHeight ∧ changesBelowViewport s ≠ [] := by
    simp [hintBelowShown, showHints, List.length_pos, Ne]
  refine ⟨habove, hbelow, ?_, ?_⟩
  · intro h470
    constructor
    · rw [Bool.eq_false_iff, Ne, habove, h470]
      rintro ⟨h, -⟩
      exact absurd h (by norm_num)
    · rw [Bool.eq_false_iff, Ne, hbelow, h470]
      rintro ⟨h, -⟩
      exact absurd h (by norm_num)
  · intro h471
    constructor
    · rw [habove, h471]
      constructor
      · rintro ⟨-, h⟩; exact h
      · intro h; exact ⟨by norm_num, h⟩
    · rw [hbelow, h471]
      constructor
      · rintro ⟨-, h⟩; exact h
      · intro h; exact ⟨by norm_num, h⟩

/-- Witness for C7 at viewportHeight exactly 470 with a non-empty above
set: the hint is suppressed. -/
theorem hint_threshold_witness :
    (⟨[10], 20, 470⟩ : ComponentState).viewportHeight = 470 ∧
    hintAboveShown ⟨[10], 20, 470⟩ = false :=
  ⟨rfl, ((hint_threshold ⟨[10], 20, 470⟩).2.2.1 rfl).1⟩

/-- Claim C10. Scroll-event frame property: one `handleScroll` invocation
sets `scrollTop` to the event target's reading (default 0 when missing)
and leaves `changeOffsets` and `viewportHeight` unchanged. -/
theorem handleScroll_frame (s : ComponentState) (t : Option ℚ) :
    (handleScroll t s).scrollTop = t.getD 0 ∧
    (handleScroll t s).changeOffsets = s.changeOffsets ∧
    (handleScroll t s).viewportHeight = s.viewportHeight := by
  refine ⟨rfl, rfl, rfl⟩

/-! Section: Auto-scroll lifecycle (C1, C2) -/

/-- A lifecycle event that keeps the selection at `some r` neither changes
the component nor emits actions once `lastScolledRevisionId = some r`. -/
theorem stepEvent_same_selection_noop (r : ℕ) (c : Component)
    (hsel : c.selectedRevisionId = some r)
    (hlast : c.lastScolledRevisionId = some r)
    (e : LifecycleEvent) (he : e.keepsSelection (some r) = true) :
    (stepEvent c e).1 = c ∧ (stepEvent c e).2 = [] := by
  cases e with
  | update g =>
    constructor <;>
      simp [stepEvent, componentDidUpdate, tryScrollingToFirstChangeOrTop,
        hsel, hlast]
  | receiveProps sel g =>
    obtain rfl : sel = some r := by
      simpa [LifecycleEvent.keepsSelection] using he
    have hc : componentWillReceiveProps (some r) c = c := by
      simp [componentWillReceiveProps, hsel]
    have hcc : ({ componentWillReceiveProps (some r) c with
        selectedRevisionId := some r } : Component) = c := by
      rw [hc]
      obtain ⟨a, b, s⟩ := c
      simp_all
    constructor <;>
      · simp only [stepEvent, receiveProps, componentDidUpdate, hcc]
        simp [tryScrollingToFirstChangeOrTop, hsel, hlast]

/-- Running any number of selection-preserving events after the component
has scrolled for `r` emits no actions at all. -/
theorem run_same_selection_noop (r : ℕ) (evs : List LifecycleEvent) :
    ∀ c : Component, c.selectedRevisionId = some r →
      c.lastScolledRevisionId = some r →
      (∀ e ∈ evs, e.keepsSelection (some r) = true) →
      (run c evs).2 = [] := by
  induction evs with
  | nil => intro c _ _ _; rfl
  | cons e es ih =>
    intro c hsel hlast hevs
    have h := stepEvent_same_selection_noop r c hsel hlast e
      (hevs e (List.mem_cons_self e es))
    show (stepEvent c e).2 ++ (run (stepEvent c e).1 es).2 = []
    rw [h.1, h.2, List.nil_append]
    exact ih c hsel hlast fun e2 he2 => hevs e2 (List.mem_cons_of_mem e he2)

/-- Claim C1 (amended: the exactly-once guarantee holds for every fixed
JS-truthy revision id, i.e. non-null and non-zero). Mounting with a fresh
truthy revision r emits exactly one instant scroll, targeting
`max 0 (firstOffset - viewportHeight/2)` over freshly located offsets;
any sequence of re-renders and props deliveries that keeps r emits no
further scroll; a null selection, or one equal to the last-scrolled
revision, never auto-scrolls; on an empty offset set (with non-negative
container height) the instant scroll targets position 0. -/
theorem auto_scroll_exactly_once (r : ℕ) (hr : r ≠ 0) (g : Geometry)
    (evs : List LifecycleEvent)
    (hevs : ∀ e ∈ evs, e.keepsSelection (some r) = true) :
    (componentDidMount g ⟨some r, none, initialState⟩).2 =
      [Action.instantScroll
        (nextScrollTop (some ((locate g).headD 0)) (g.offsetHeight.getD 0))] ∧
    (run (componentDidMount g ⟨some r, none, initialState⟩).1 evs).2 = [] ∧
    (∀ c : Component, c.selectedRevisionId = none →
      tryScrollingToFirstChangeOrTop g c = (c, [])) ∧
    (∀ c : Component, c.selectedRevisionId = c.lastScolledRevisionId →
      tryScrollingToFirstChangeOrTop g c = (c, [])) ∧
    (locate g = [] → 0 ≤ g.offsetHeight.getD 0 →
      nextScrollTop (some ((locate g).headD 0)) (g.offsetHeight.getD 0) =
        some 0) := by
  have hmount : componentDidMount g ⟨some r, none, initialState⟩ =
      (⟨some r, some r, recomputeChanges g initialState⟩,
       [Action.instantScroll
         (nextScrollTop (some ((locate g).headD 0)) (g.offsetHeight.getD 0))]) := by
    simp only [componentDidMount, tryScrollingToFirstChangeOrTop]
    rw [if_neg]
    · rfl
    · simp [isFalsyId, hr]
  refine ⟨by rw [hmount], ?_, ?_, ?_, ?_⟩
  · rw [hmount]
    exact run_same_selection_noop r evs _ rfl rfl hevs
  · intro c h
    simp [tryScrollingToFirstChangeOrTop, isFalsyId, h]
  · intro c h
    simp [tryScrollingToFirstChangeOrTop, h]
  · intro h hvh
    rw [h]
    show some (max 0 ((0 : ℚ) - g.offsetHeight.getD 0 / 2)) = some 0
    rw [max_eq_left (by linarith)]

/-- Witness for C1 at revision 1, an empty diff surface and one
subsequent re-render. -/
theorem auto_scroll_exactly_once_witness :
    ((1 : ℕ) ≠ 0) ∧
    (componentDidMount ⟨[], some 500, some 0⟩ ⟨some 1, none, initialState⟩).2 =
      [Action.instantScroll (some 0)] := by
  refine ⟨one_ne_zero, ?_⟩
  have h := (auto_scroll_exactly_once 1 one_ne_zero ⟨[], some 500, some 0⟩
    [LifecycleEvent.update ⟨[], some 500, some 0⟩] (by decide)).1
  rw [h]
  show [Action.instantScroll (some (max 0 ((0 : ℚ) - 500 / 2)))] =
    [Action.instantScroll (some 0)]
  rw [max_eq_left (by norm_num : (0 : ℚ) - 500 / 2 ≤ 0)]

/-- Counterexample to C1 as stated: revision id 0 is a non-null
RevisionSelection, the diff surface has a change region, and nothing has
been auto-scrolled yet — but mounting emits no scroll and records no
last-scrolled revision, because the code tests JS truthiness
(`! this.props.selectedRevisionId`) and the number 0 is falsy. -/
theorem auto_scroll_zero_revision_counterexample :
    (componentDidMount ⟨[⟨some 10, some 4⟩], some 500, some 0⟩
      ⟨some 0, none, initialState⟩).2 = [] ∧
    (componentDidMount ⟨[⟨some 10, some 4⟩], some 500, some 0⟩
      ⟨some 0, none, initialState⟩).1.lastScolledRevisionId = none := by
  decide

/-- The auto-scroll path emits either nothing or exactly one instant
scroll whose target is computed from the supplied geometry alone
(fresh `locate` and fresh container height — never from prior state). -/
theorem tryScrolling_actions_shape (g : Geometry) (c : Component) :
    (tryScrollingToFirstChangeOrTop g c).2 = [] ∨
    (tryScrollingToFirstChangeOrTop g c).2 =
      [Action.instantScroll
        (nextScrollTop (some ((locate g).headD 0)) (g.offsetHeight.getD 0))] := by
  unfold tryScrollingToFirstChangeOrTop
  split
  · exact Or.inl rfl
  · exact Or.inr rfl

/-- Claim C2. Invalidation law: a props delivery whose selectedRevisionId
differs clears `changeOffsets` in `componentWillReceiveProps`, before the
update renders; and whatever the ensuing update cycle emits is either no
scroll or one instant scroll whose target is computed from the current
DOM geometry alone (`locate g` and the fresh container height) — stale
offsets of the previous revision are never consulted. -/
theorem invalidation_law (c : Component) (nextSel : Option ℕ) (g : Geometry)
    (hne : nextSel ≠ c.selectedRevisionId) :
    (componentWillReceiveProps nextSel c).state.changeOffsets = [] ∧
    ((receiveProps nextSel g c).2 = [] ∨
      (receiveProps nextSel g c).2 =
        [Action.instantScroll
          (nextScrollTop (some ((locate g).headD 0)) (g.offsetHeight.getD 0))]) := by
  constructor
  · simp [componentWillReceiveProps, hne, setState]
  · exact tryScrolling_actions_shape g
      { componentWillReceiveProps nextSel c with selectedRevisionId := nextSel }

/-- Witness for C2 at a concrete revision change 1 → 2 with a stale
offset in state. -/
theorem invalidation_law_witness :
    (some 2 ≠ (⟨some 1, some 1, ⟨[5], 0, 0⟩⟩ : Component).selectedRevisionId) ∧
    (componentWillReceiveProps (some 2)
      ⟨some 1, some 1, ⟨[5], 0, 0⟩⟩).state.changeOffsets = [] := by
  refine ⟨by decide, ?_⟩
  exact (invalidation_law ⟨some 1, some 1, ⟨[5], 0, 0⟩⟩ (some 2)
    ⟨[], none, none⟩ (by decide)).1

/-! Section: User-triggered hint scrolls (C6) -/

/-- In a `≤`-sorted list, `getLast?` returns a member bounding every
element from above. -/
theorem sorted_getLast?_max :
    ∀ (l : List ℚ), l.Sorted (· ≤ ·) → ∀ {m : ℚ}, l.getLast? = some m →
      m ∈ l ∧ ∀ o ∈ l, o ≤ m := by
  intro l
  induction l with
  | nil => intro _ m hm; cases hm
  | cons a t ih =>
    intro hl m hm
    have hl2 := List.sorted_cons.mp hl
    cases t with
    | nil =>
      obtain rfl : a = m := by simpa using hm
      refine ⟨by simp, ?_⟩
      intro o ho
      have hoa : o = a := by simpa using ho
      exact le_of_eq hoa
    | cons b t2 =>
      have hm2 : (b :: t2).getLast? = some m := by
        simpa [List.getLast?_cons_cons] using hm
      obtain ⟨hmem, hub⟩ := ih hl2.2 hm2
      refine ⟨List.mem_cons_of_mem a hmem, ?_⟩
      intro o ho
      rcases List.mem_cons.mp ho with rfl | ho2
      · exact le_trans (hl2.1 b (by simp)) (hub b (by simp))
      · exact hub o ho2

/-- In a `≤`-sorted list, `head?` returns a member bounding every element
from below. -/
theorem sorted_head?_min (l : List ℚ) (hl : l.Sorted (· ≤ ·)) {m : ℚ}
    (hm : l.head? = some m) : m ∈ l ∧ ∀ o ∈ l, m ≤ o := by
  cases l with
  | nil => cases hm
  | cons a t =>
    obtain rfl : a = m := by simpa using hm
    refine ⟨by simp, ?_⟩
    intro o ho
    rcases List.mem_cons.mp ho with rfl | ho2
    · exact le_refl o
    · exact (List.sorted_cons.mp hl).1 o ho2

/-- Counterexample to C6 as stated: with an empty above set, invoking
`scrollAbove` is not a no-op — `last([])` is `undefined`, so the code
still issues an animated scroll whose target is `NaN`
(`Math.max(0, undefined - viewportHeight/2)`), and it still fires the
analytics notification. -/
theorem scrollAbove_empty_counterexample :
    scrollAbove ⟨[], 0, 500⟩ =
      [Action.animatedScroll none, Action.analytics Direction.above] ∧
    scrollAbove ⟨[], 0, 500⟩ ≠ [] ∧
    scrollBelow ⟨[], 0, 500⟩ =
      [Action.animatedScroll none, Action.analytics Direction.below] := by
  refine ⟨rfl, by decide, rfl⟩

/-- Claim C6 (amended: with offsets in ascending document order,
`scrollAbove` centers animated on the largest offset strictly below
`scrollTop` and `scrollBelow` on the smallest offset strictly beyond
`scrollTop + viewportHeight`, and each invocation emits exactly one
analytics notification tagged `above`/`below`; an invocation on an empty
set is NOT a no-op — it issues an animated scroll with a `NaN` target
from the `undefined` offset and still emits the analytics notification;
the rendered hint, however, is absent when the set is empty). -/
theorem hint_scroll_behavior (s : ComponentState)
    (hsorted : s.changeOffsets.Sorted (· ≤ ·)) :
    (∀ m : ℚ, (changesAboveViewport s).getLast? = some m →
      scrollAbove s =
        [Action.animatedScroll (some (max 0 (m - s.viewportHeight / 2))),
         Action.analytics Direction.above] ∧
      m ∈ s.changeOffsets ∧ m < s.scrollTop ∧
      ∀ o ∈ s.changeOffsets, o < s.scrollTop → o ≤ m) ∧
    (∀ m : ℚ, (changesBelowViewport s).head? = some m →
      scrollBelow s =
        [Action.animatedScroll (some (max 0 (m - s.viewportHeight / 2))),
         Action.analytics Direction.below] ∧
      m ∈ s.changeOffsets ∧ bottomBoundary s < m ∧
      ∀ o ∈ s.changeOffsets, bottomBoundary s < o → m ≤ o) ∧
    (changesAboveViewport s ≠ [] →
      ∃ m : ℚ, (changesAboveViewport s).getLast? = some m) ∧
    (changesBelowViewport s ≠ [] →
      ∃ m : ℚ, (changesBelowViewport s).head? = some m) ∧
    (changesAboveViewport s = [] →
      scrollAbove s =
        [Action.animatedScroll none, Action.analytics Direction.above]) ∧
    (changesBelowViewport s = [] →
      scrollBelow s =
        [Action.animatedScroll none, Action.analytics Direction.below]) ∧
    (scrollAbove s).filter isAnalytics = [Action.analytics Direction.above] ∧
    (scrollBelow s).filter isAnalytics = [Action.analytics Direction.below] := by
  have habove : (changesAboveViewport s).Sorted (· ≤ ·) :=
    List.Sorted.filter _ hsorted
  have hbelow : (changesBelowViewport s).Sorted (· ≤ ·) :=
    List.Sorted.filter _ hsorted
  refine ⟨?_, ?_, ?_, ?_, ?_, ?_, rfl, rfl⟩
  · intro m hm
    obtain ⟨hmem, hub⟩ := sorted_getLast?_max _ habove hm
    have hmem2 := List.mem_filter.mp hmem
    refine ⟨?_, hmem2.1, by simpa using hmem2.2, ?_⟩
    · simp [scrollAbove, hm, centerScrollingOnOffset, nextScrollTop]
    · intro o ho holt
      exact hub o (List.mem_filter.mpr ⟨ho, by simpa using holt⟩)
  · intro m hm
    obtain ⟨hmem, hlb⟩ := sorted_head?_min _ hbelow hm
    have hmem2 := List.mem_filter.mp hmem
    refine ⟨?_, hmem2.1, by simpa using hmem2.2, ?_⟩
    · simp [scrollBelow, hm, centerScrollingOnOffset, nextScrollTop]
    · intro o ho holt
      exact hlb o (List.mem_filter.mpr ⟨ho, by simpa using holt⟩)
  · intro h
    exact ⟨(changesAboveViewport s).getLast h,
      List.getLast?_eq_getLast_of_ne_nil h⟩
  · intro h
    obtain ⟨x, xs, hx⟩ := List.exists_cons_of_ne_nil h
    exact ⟨x, by rw [hx]; rfl⟩
  · intro h
    simp [scrollAbove, h, centerScrollingOnOffset, nextScrollTop]
  · intro h
    simp [scrollBelow, h, centerScrollingOnOffset, nextScrollTop]

/-- Witness for C6 on offsets `[10, 50, 900]`, `scrollTop = 100`,
`viewportHeight = 300`: the above set is `[10, 50]`, so `scrollAbove`
emits an animated scroll to `max 0 (50 - 150) = 0` and one analytics
notification. -/
theorem hint_scroll_behavior_witness :
    (⟨[10, 50, 900], 100, 300⟩ : ComponentState).changeOffsets.Sorted (· ≤ ·) ∧
    scrollAbove ⟨[10, 50, 900], 100, 300⟩ =
      [Action.animatedScroll (some 0), Action.analytics Direction.above] := by
  have hs : (⟨[10, 50, 900], 100, 300⟩ :
      ComponentState).changeOffsets.Sorted (· ≤ ·) := by
    norm_num [List.sorted_cons]
  refine ⟨hs, ?_⟩
  have h50 : (changesAboveViewport ⟨[10, 50, 900], 100, 300⟩).getLast? =
      some 50 := by decide
  have h := ((hint_scroll_behavior ⟨[10, 50, 900], 100, 300⟩ hs).1 50 h50).1
  rw [h]
  show [Action.animatedScroll (some (max 0 ((50 : ℚ) - 300 / 2))),
    Action.analytics Direction.above] = _
  rw [max_eq_left (by norm_num : (50 : ℚ) - 300 / 2 ≤ 0)]

end EditorDiffViewer
